import Mathlib

/-!
# Verification of the jsh-api resource routing and dispatch engine

This file is a shallow embedding of the route-registration and request-dispatch
logic of the `jshapi` package (`resource.go`), together with the narrow slices
of its external collaborators (the `jsh` codec's error constructors and status
codes, and the `goji` pattern matcher and mux) that the verified properties
depend on.  External collaborators are modelled from the specification, as
noted in their doc comments; everything else is translated directly from the
Go source.
-/

/-! ## HTTP method constants (resource.go lines 20-29) -/

def post : String := "POST"

def get : String := "GET"

def delete : String := "DELETE"

def patch : String := "PATCH"

def head : String := "HEAD"

def options : String := "OPTIONS"

def patID : String := "/:id"

def patRoot : String := ""

/-- The process-wide toggle `EnableClientGeneratedIDs` (resource.go line 32)
is a Go `bool` whose zero value, and hence default, is `false`. -/
def EnableClientGeneratedIDsDefault : Bool := false

/-! ## strings.Contains (Go standard library)

`strings.Contains(s, substr)` reports whether `substr` is a contiguous
substring of `s`.  We embed it as an executable infix check on the
character lists of the two strings. -/

/-- Executable check that `needle` occurs as a contiguous sublist of the
second argument; `listInfixOf n h` is Go's `strings.Contains(h, n)` on
character lists. -/
def listInfixOf (needle : List Char) : List Char → Bool
  | [] => needle.isEmpty
  | b :: bs => needle.isPrefixOf (b :: bs) || listInfixOf needle bs

/-- Embedding of Go's `strings.Contains(s, substr)`. -/
def strContains (s substr : String) : Bool :=
  listInfixOf substr.toList s.toList

/-! ## jsh error model

The `jsh` codec is an external collaborator; only the status codes of its
error constructors matter here. -/

/-- Modelled from the spec: an error of the external `jsh` codec carries an
HTTP status code plus human-readable text (spec section 7 error taxonomy). -/
structure JshError where
  status : Nat
  title : String
  detail : String
deriving DecidableEq, Repr

/-- Modelled from the spec: `jsh.ForbiddenError` carries status 403
("403 (client-generated ID rejected)", spec section 6). -/
def ForbiddenError (msg : String) : JshError :=
  ⟨403, "Forbidden", msg⟩

/-- Modelled from the spec: `jsh.ConflictError` carries status 409
("409 (ID mismatch on update)", spec section 6). -/
def ConflictError (resourceType id : String) : JshError :=
  ⟨409, resourceType, id⟩

/-- Modelled from the spec: `jsh.BadRequestError` carries status 400
("400 (empty mutation list)", spec section 6). -/
def BadRequestError (title detail : String) : JshError :=
  ⟨400, title, detail⟩

/-! ## Entity model (`jsh.Object`, `jsh.IDObject`) -/

/-- The slice of `jsh.Object` the dispatch logic reads and writes: the
declared identifier `ID` and the response status override `Status`
(0 = unset). -/
structure Object where
  ID : String
  Status : Nat
deriving DecidableEq, Repr

/-- The slice of `jsh.IDObject` (a relationship linkage) the dispatch logic
needs; the handlers only test list emptiness, never the fields. -/
structure IDObject where
  ID : String
deriving DecidableEq, Repr

/-! ## Route table (resource.go lines 34-44) -/

/-- `Route` represents a resource route (resource.go lines 34-39). -/
structure Route where
  Method : String
  Path : String
  Allow : Bool
deriving DecidableEq, Repr

/-! ## goji pattern matching (external)

`allowHeader` matches each registered `Route.Path` (a goji pattern such as
`/widgets/:id`) against the concrete request path. -/

def splitSlashAux : List Char → List Char → List String
  | [], acc => [String.mk acc.reverse]
  | c :: rest, acc =>
    if c = '/' then String.mk acc.reverse :: splitSlashAux rest []
    else splitSlashAux rest (c :: acc)

/-- Split a path on `/` separators. -/
def splitSlash (s : String) : List String :=
  splitSlashAux s.toList []

/-- Modelled from the spec: one segment of a goji pattern matches one path
segment when the pattern segment is a `:`-parameter or is literally equal
("same path-parameter arity and literal segments", spec section 4.1). -/
def segMatches (patSeg pathSeg : String) : Bool :=
  match patSeg.toList with
  | ':' :: _ => true
  | _ => patSeg == pathSeg

/-- Modelled from the spec: the external goji matcher `pat.New(pattern).Match`
succeeds when pattern and path have the same number of `/`-separated segments
and each pattern segment matches the corresponding path segment
(spec section 4.1). -/
def patternMatches (pat path : String) : Bool :=
  let ps := splitSlash pat
  let qs := splitSlash path
  ps.length == qs.length && (List.zip ps qs).all fun pq => segMatches pq.1 pq.2

/-! ## Mux model (external goji.SubMux)

Each `HandleFuncC` call in the source binds one handler to one
(method-pattern, path-pattern) pair.  `HandlerKind` names which handler
function of `resource.go` was bound. -/

/-- The method component of a goji `pat` route: `pat.Get`, `pat.Post`,
`pat.Patch`, `pat.Delete`, `pat.Options`. -/
inductive PatKind
  | pGet
  | pPost
  | pPatch
  | pDelete
  | pOptions
deriving DecidableEq, Repr

/-- Modelled from the spec: which HTTP request methods each goji `pat`
constructor accepts; `pat.Get` additionally accepts `HEAD` ("`GET` operations
always additionally register a `HEAD` alias", spec section 4.2). -/
def methodMatches : PatKind → String → Bool
  | .pGet, m => m == get || m == head
  | .pPost, m => m == post
  | .pPatch, m => m == patch
  | .pDelete, m => m == delete
  | .pOptions, m => m == options

/-- Names the handler function of `resource.go` bound by a registration call. -/
inductive HandlerKind
  | notAllowed
  | optionsK
  | postK
  | listK
  | fetchK
  | patchK
  | deleteK
  | actionK
  | fetchIDK
  | patchOneK
  | listManyK
  | listIDK
  | patchManyK
  | updateManyK
deriving DecidableEq, Repr

/-- One `HandleFuncC` binding inside a resource's sub-mux. -/
structure MuxEntry where
  pat : PatKind
  pattern : String
  handler : HandlerKind
deriving DecidableEq, Repr

/-- Modelled from the spec: the external goji mux dispatches a request to the
bound handler whose method accepts the request method and whose pattern
matches the (resource-relative) request path (spec section 2 control flow). -/
def dispatchResource (entries : List MuxEntry) (method relPath : String) :
    Option HandlerKind :=
  (entries.find? fun e =>
    methodMatches e.pat method && patternMatches e.pattern relPath).map MuxEntry.handler

/-! ## Relationship kind (relationship constants of the jshapi package) -/

/-- Modelled from the spec: the relationship-kind constants `ToOne`/`ToMany`
recorded in `Resource.Relationships` (their defining file is not under the
provided sources; spec section 3 "relationship-kind"). -/
inductive Relationship
  | toOne
  | toMany
deriving DecidableEq, Repr

/-! ## Resource (resource.go lines 67-94) -/

/-- `Resource` holds the state for one REST endpoint: its type segment, the
registered route table, the relationship-kind map, and the sub-mux of bound
handlers (the embedded `goji.Mux` is modelled as the list of its
`HandleFuncC` bindings). -/
structure Resource where
  type : String
  Routes : List Route
  Relationships : List (String × Relationship)
  Mux : List MuxEntry
deriving DecidableEq, Repr

/-- `NewResource` (resource.go lines 84-94). -/
def NewResource (resourceType : String) : Resource :=
  { type := resourceType
    Routes := []
    Relationships := []
    Mux := [] }

/-- `addRoute` (resource.go lines 623-629): appends the route with the
type-prefixed path `fmt.Sprintf("/%s%s", res.Type, route)`. -/
def Resource.addRoute (res : Resource) (method route : String) (allow : Bool) :
    Resource :=
  { res with
    Routes := res.Routes ++ [{ Method := method
                               Path := "/" ++ res.type ++ route
                               Allow := allow }] }

/-- `Options` (resource.go lines 216-225): binds `optionsHandler`
unconditionally and records an always-allowed OPTIONS route. -/
def Resource.Options (res : Resource) (pattern : String) : Resource :=
  ({ res with
     Mux := res.Mux ++ [MuxEntry.mk .pOptions pattern .optionsK] }).addRoute options pattern true

/-- `Post` (resource.go lines 228-238): binds `postHandler` when allowed,
`notAllowedHandler` otherwise. -/
def Resource.Post (res : Resource) (allow : Bool) : Resource :=
  let handler := if allow then HandlerKind.postK else HandlerKind.notAllowed
  ({ res with
     Mux := res.Mux ++ [MuxEntry.mk .pPost patRoot handler] }).addRoute post patRoot allow

/-- `Get` (resource.go lines 241-252): binds `fetchHandler` on `pat.Get`
(which also accepts HEAD) and records HEAD and GET routes with the same
allow flag. -/
def Resource.Get (res : Resource) (allow : Bool) : Resource :=
  let handler := if allow then HandlerKind.fetchK else HandlerKind.notAllowed
  (({ res with
      Mux := res.Mux ++ [MuxEntry.mk .pGet patID handler] }).addRoute head patID allow).addRoute
    get patID allow

/-- `List` (resource.go lines 255-266). -/
def Resource.List (res : Resource) (allow : Bool) : Resource :=
  let handler := if allow then HandlerKind.listK else HandlerKind.notAllowed
  (({ res with
      Mux := res.Mux ++ [MuxEntry.mk .pGet patRoot handler] }).addRoute head patRoot allow).addRoute
    get patRoot allow

/-- `Patch` (resource.go lines 269-279). -/
def Resource.Patch (res : Resource) (allow : Bool) : Resource :=
  let handler := if allow then HandlerKind.patchK else HandlerKind.notAllowed
  ({ res with
     Mux := res.Mux ++ [MuxEntry.mk .pPatch patID handler] }).addRoute patch patID allow

/-- `Delete` (resource.go lines 282-292). -/
def Resource.Delete (res : Resource) (allow : Bool) : Resource :=
  let handler := if allow then HandlerKind.deleteK else HandlerKind.notAllowed
  ({ res with
     Mux := res.Mux ++ [MuxEntry.mk .pDelete patID handler] }).addRoute delete patID allow

/-- `GetRelated` (resource.go lines 297-308): binds `fetchHandler`. -/
def Resource.GetRelated (res : Resource) (matcher : String) (allow : Bool) : Resource :=
  let handler := if allow then HandlerKind.fetchK else HandlerKind.notAllowed
  (({ res with
      Mux := res.Mux ++ [MuxEntry.mk .pGet matcher handler] }).addRoute head matcher allow).addRoute
    get matcher allow

/-- `GetRelationship` (resource.go lines 311-322): binds `fetchIDHandler`. -/
def Resource.GetRelationship (res : Resource) (matcher : String) (allow : Bool) : Resource :=
  let handler := if allow then HandlerKind.fetchIDK else HandlerKind.notAllowed
  (({ res with
      Mux := res.Mux ++ [MuxEntry.mk .pGet matcher handler] }).addRoute head matcher allow).addRoute
    get matcher allow

/-- `PatchOne` (resource.go lines 325-335): binds `patchOneHandler`. -/
def Resource.PatchOne (res : Resource) (matcher : String) (allow : Bool) : Resource :=
  let handler := if allow then HandlerKind.patchOneK else HandlerKind.notAllowed
  ({ res with
     Mux := res.Mux ++ [MuxEntry.mk .pPatch matcher handler] }).addRoute patch matcher allow

/-- `ListRelated` (resource.go lines 340-351): binds `listManyHandler`. -/
def Resource.ListRelated (res : Resource) (matcher : String) (allow : Bool) : Resource :=
  let handler := if allow then HandlerKind.listManyK else HandlerKind.notAllowed
  (({ res with
      Mux := res.Mux ++ [MuxEntry.mk .pGet matcher handler] }).addRoute head matcher allow).addRoute
    get matcher allow

/-- `ListRelationships` (resource.go lines 354-365): binds `listIDHandler`. -/
def Resource.ListRelationships (res : Resource) (matcher : String) (allow : Bool) : Resource :=
  let handler := if allow then HandlerKind.listIDK else HandlerKind.notAllowed
  (({ res with
      Mux := res.Mux ++ [MuxEntry.mk .pGet matcher handler] }).addRoute head matcher allow).addRoute
    get matcher allow

/-- `PatchMany` (resource.go lines 368-378): binds `patchManyHandler`. -/
def Resource.PatchMany (res : Resource) (matcher : String) (allow : Bool) : Resource :=
  let handler := if allow then HandlerKind.patchManyK else HandlerKind.notAllowed
  ({ res with
     Mux := res.Mux ++ [MuxEntry.mk .pPatch matcher handler] }).addRoute patch matcher allow

/-- `PostMany` (resource.go lines 381-391): binds `updateManyHandler`. -/
def Resource.PostMany (res : Resource) (matcher : String) (allow : Bool) : Resource :=
  let handler := if allow then HandlerKind.updateManyK else HandlerKind.notAllowed
  ({ res with
     Mux := res.Mux ++ [MuxEntry.mk .pPost matcher handler] }).addRoute post matcher allow

/-- `DeleteMany` (resource.go lines 394-404): binds the same
`updateManyHandler` as `PostMany`. -/
def Resource.DeleteMany (res : Resource) (matcher : String) (allow : Bool) : Resource :=
  let handler := if allow then HandlerKind.updateManyK else HandlerKind.notAllowed
  ({ res with
     Mux := res.Mux ++ [MuxEntry.mk .pDelete matcher handler] }).addRoute delete matcher allow

/-- `PartialCRUD` (resource.go lines 121-129), with the per-method allow
flags `!strings.Contains(disallow, method)`.  The storage bundle only feeds
the bound closures, so it does not appear in the route/mux state. -/
def Resource.PartialCRUD (res : Resource) (disallow : String) : Resource :=
  ((((((res.Options patRoot).List true).Post
            (!strContains disallow post)).Options patID).Get true).Patch
        (!strContains disallow patch)).Delete (!strContains disallow delete)

/-- `CRUD` (resource.go lines 114-116). -/
def Resource.CRUD (res : Resource) : Resource :=
  res.PartialCRUD ""

/-- `PartialToOne` (resource.go lines 149-160). -/
def Resource.PartialToOne (res : Resource) (relationship disallow : String) : Resource :=
  let matcher := patID ++ "/" ++ relationship
  let res1 := (res.Options matcher).GetRelated matcher true
  let relationshipMatcher := patID ++ "/relationships/" ++ relationship
  let res2 :=
    (((res1.Options relationshipMatcher).GetRelationship relationshipMatcher
          true).PatchOne relationshipMatcher (!strContains disallow patch))
  { res2 with Relationships := res2.Relationships ++ [(relationship, .toOne)] }

/-- `ToOne` (resource.go lines 142-144). -/
def Resource.ToOne (res : Resource) (relationship : String) : Resource :=
  res.PartialToOne relationship ""

/-- `PartialToMany` (resource.go lines 182-197). -/
def Resource.PartialToMany (res : Resource) (relationship disallow : String) : Resource :=
  let matcher := patID ++ "/" ++ relationship
  let res1 := (res.Options matcher).ListRelated matcher true
  let relationshipMatcher := patID ++ "/relationships/" ++ relationship
  let res2 :=
    ((((res1.Options relationshipMatcher).ListRelationships relationshipMatcher
            true).PostMany relationshipMatcher
          (!strContains disallow post)).PatchMany relationshipMatcher
        (!strContains disallow patch)).DeleteMany relationshipMatcher
      (!strContains disallow delete)
  { res2 with Relationships := res2.Relationships ++ [(relationship, .toMany)] }

/-- `ToMany` (resource.go lines 175-177). -/
def Resource.ToMany (res : Resource) (relationship : String) : Resource :=
  res.PartialToMany relationship ""

/-! ## Allow-header computation (resource.go lines 641-652)

`allowHeader` scans the route table; every allowed route whose path pattern
matches the request path contributes its method, joined with commas in
registration order. -/

/-- The methods contributed to the `Allow` header: the filter-map loop body of
`allowHeader` (resource.go lines 644-650). -/
def allowedMethods (routes : List Route) (reqPath : String) : List String :=
  (routes.filter fun r => r.Allow && patternMatches r.Path reqPath).map Route.Method

/-- `allowHeader` (resource.go lines 642-652): the comma-joined contributing
methods (`fmt.Sprint(methods, sep, route.Method)` with `sep` empty before the
first hit and `","` afterwards). -/
def allowHeader (routes : List Route) (reqPath : String) : String :=
  String.intercalate "," (allowedMethods routes reqPath)

/-! ## Response model

The handlers hand a value to the injected `SendHandler`; `Sent` records what
was handed over (or, for `notAllowedHandler`/`optionsHandler`, the directly
written response). -/

/-- What a handler produced: an error, a (possibly nil) object, a resource
list, a linkage list, a direct 405 with `Allow` header, or a direct 200 with
`Allow` header. -/
inductive Sent
  | err (e : JshError)
  | obj (o : Option Object)
  | list (l : List Object)
  | idList (l : List IDObject)
  | methodNotAllowed (allow : String)
  | ok200 (allow : String)
deriving DecidableEq, Repr

/-- Modelled from the spec: the HTTP status the external sender assigns to
each handler outcome (spec section 6 status codes): an error's own status; a
nil/empty linkage-list result is a no-content 204 and a non-empty one a 200;
405 and 200 for the directly written responses.  The status of an entity
response depends on the sender's per-verb defaulting and is left
undetermined (`none`). -/
def sentStatus : Sent → Option Nat
  | .err e => some e.status
  | .obj _ => none
  | .list _ => none
  | .idList l => some (if l.isEmpty then 204 else 200)
  | .methodNotAllowed _ => some 405
  | .ok200 _ => some 200

/-! ## Request handlers (resource.go lines 406-619)

Request parsing is performed by the external `jsh` codec, so each handler
takes the parse outcome as input (`Except` error = non-nil parse error).
Storage operations are the injected callbacks; a handler that never reaches
its storage argument produces the same `Sent` for every storage function. -/

/-- `notAllowedHandler` (resource.go lines 407-411): writes 405 with the
computed `Allow` header. -/
def notAllowedHandler (routes : List Route) (reqPath : String) : Sent :=
  .methodNotAllowed (allowHeader routes reqPath)

/-- `optionsHandler` (resource.go lines 414-418): writes 200 with the
computed `Allow` header. -/
def optionsHandler (routes : List Route) (reqPath : String) : Sent :=
  .ok200 (allowHeader routes reqPath)

/-- `postHandler` (resource.go lines 421-440): forwards parse errors, rejects
a client-supplied ID when the toggle is off, otherwise sends the save
result unchanged. -/
def postHandler (enableClientGeneratedIDs : Bool)
    (parsed : Except JshError Object)
    (storage : Object → Except JshError (Option Object)) : Sent :=
  match parsed with
  | .error parseErr => .err parseErr
  | .ok parsedObject =>
    if !enableClientGeneratedIDs && parsedObject.ID != "" then
      .err (ForbiddenError "Client-generated IDs are unsupported")
    else
      match storage parsedObject with
      | .error e => .err e
      | .ok object => .obj object

/-- `patchHandler` (resource.go lines 467-487): forwards parse errors, sends
a conflict error when the path id differs from the body id, otherwise sends
the update result unchanged. -/
def patchHandler (parsed : Except JshError Object) (id : String)
    (storage : Object → Except JshError (Option Object)) : Sent :=
  match parsed with
  | .error parseErr => .err parseErr
  | .ok parsedObject =>
    if id != parsedObject.ID then
      .err (ConflictError "" parsedObject.ID)
    else
      match storage parsedObject with
      | .error e => .err e
      | .ok object => .obj object

/-- `actionHandler` (resource.go lines 503-515): on success, a non-nil
response with unset (zero) status is defaulted to 200 before sending. -/
def actionHandler (storage : Except JshError (Option Object)) : Sent :=
  match storage with
  | .error e => .err e
  | .ok response =>
    match response with
    | some o => if o.Status = 0 then .obj (some { o with Status := 200 }) else .obj (some o)
    | none => .obj none

/-- `patchManyHandler` (resource.go lines 579-595), bound to
`PATCH /type/:id/relationships/rel`: forwards parse errors and otherwise
invokes storage directly — it has no empty-list check. -/
def patchManyHandler (parsed : Except JshError (List IDObject)) (id : String)
    (storage : String → List IDObject → Except JshError (List IDObject)) : Sent :=
  match parsed with
  | .error parseErr => .err parseErr
  | .ok list =>
    match storage id list with
    | .error e => .err e
    | .ok list2 => .idList list2

/-- `updateManyHandler` (resource.go lines 598-619), bound to both
`POST` and `DELETE /type/:id/relationships/rel`: rejects an empty parsed
linkage list with a bad-request error before invoking storage. -/
def updateManyHandler (parsed : Except JshError (List IDObject)) (id : String)
    (storage : String → List IDObject → Except JshError (List IDObject)) : Sent :=
  match parsed with
  | .error parseErr => .err parseErr
  | .ok list =>
    if list.length = 0 then
      .err (BadRequestError "Invalid document" "Missing description of changes")
    else
      match storage id list with
      | .error e => .err e
      | .ok list2 => .idList list2

/-! ## Helper lemmas: explicit route tables and mux tables -/

theorem partialCRUD_Routes (T s : String) :
    ((NewResource T).PartialCRUD s).Routes =
      [⟨options, "/" ++ T, true⟩, ⟨head, "/" ++ T, true⟩, ⟨get, "/" ++ T, true⟩,
       ⟨post, "/" ++ T, !strContains s post⟩,
       ⟨options, "/" ++ T ++ "/:id", true⟩, ⟨head, "/" ++ T ++ "/:id", true⟩,
       ⟨get, "/" ++ T ++ "/:id", true⟩,
       ⟨patch, "/" ++ T ++ "/:id", !strContains s patch⟩,
       ⟨delete, "/" ++ T ++ "/:id", !strContains s delete⟩] := by
  simp [Resource.PartialCRUD, Resource.Options, Resource.List, Resource.Post,
        Resource.Get, Resource.Patch, Resource.Delete, Resource.addRoute,
        NewResource, patRoot, patID]

theorem partialCRUD_Mux (T s : String) :
    ((NewResource T).PartialCRUD s).Mux =
      [⟨.pOptions, "", .optionsK⟩, ⟨.pGet, "", .listK⟩,
       ⟨.pPost, "", if !strContains s post then .postK else .notAllowed⟩,
       ⟨.pOptions, "/:id", .optionsK⟩, ⟨.pGet, "/:id", .fetchK⟩,
       ⟨.pPatch, "/:id", if !strContains s patch then .patchK else .notAllowed⟩,
       ⟨.pDelete, "/:id", if !strContains s delete then .deleteK else .notAllowed⟩] := by
  simp [Resource.PartialCRUD, Resource.Options, Resource.List, Resource.Post,
        Resource.Get, Resource.Patch, Resource.Delete, Resource.addRoute,
        NewResource, patRoot, patID]

theorem partialCRUD_type (T s : String) :
    ((NewResource T).PartialCRUD s).type = T := rfl

theorem partialToOne_type (res : Resource) (rel s : String) :
    (res.PartialToOne rel s).type = res.type := rfl

theorem partialToMany_type (res : Resource) (rel s : String) :
    (res.PartialToMany rel s).type = res.type := rfl

theorem partialToOne_Routes (res : Resource) (rel s : String) :
    (res.PartialToOne rel s).Routes = res.Routes ++
      [⟨options, "/" ++ res.type ++ "/:id/" ++ rel, true⟩,
       ⟨head, "/" ++ res.type ++ "/:id/" ++ rel, true⟩,
       ⟨get, "/" ++ res.type ++ "/:id/" ++ rel, true⟩,
       ⟨options, "/" ++ res.type ++ "/:id/relationships/" ++ rel, true⟩,
       ⟨head, "/" ++ res.type ++ "/:id/relationships/" ++ rel, true⟩,
       ⟨get, "/" ++ res.type ++ "/:id/relationships/" ++ rel, true⟩,
       ⟨patch, "/" ++ res.type ++ "/:id/relationships/" ++ rel, !strContains s patch⟩] := by
  simp [Resource.PartialToOne, Resource.Options, Resource.GetRelated,
        Resource.GetRelationship, Resource.PatchOne, Resource.addRoute,
        patID, String.append_assoc]

theorem partialToMany_Routes (res : Resource) (rel s : String) :
    (res.PartialToMany rel s).Routes = res.Routes ++
      [⟨options, "/" ++ res.type ++ "/:id/" ++ rel, true⟩,
       ⟨head, "/" ++ res.type ++ "/:id/" ++ rel, true⟩,
       ⟨get, "/" ++ res.type ++ "/:id/" ++ rel, true⟩,
       ⟨options, "/" ++ res.type ++ "/:id/relationships/" ++ rel, true⟩,
       ⟨head, "/" ++ res.type ++ "/:id/relationships/" ++ rel, true⟩,
       ⟨get, "/" ++ res.type ++ "/:id/relationships/" ++ rel, true⟩,
       ⟨post, "/" ++ res.type ++ "/:id/relationships/" ++ rel, !strContains s post⟩,
       ⟨patch, "/" ++ res.type ++ "/:id/relationships/" ++ rel, !strContains s patch⟩,
       ⟨delete, "/" ++ res.type ++ "/:id/relationships/" ++ rel, !strContains s delete⟩] := by
  simp [Resource.PartialToMany, Resource.Options, Resource.ListRelated,
        Resource.ListRelationships, Resource.PostMany, Resource.PatchMany,
        Resource.DeleteMany, Resource.addRoute, patID, String.append_assoc]

theorem partialToOne_Mux (res : Resource) (rel s : String) :
    (res.PartialToOne rel s).Mux = res.Mux ++
      [⟨.pOptions, "/:id/" ++ rel, .optionsK⟩,
       ⟨.pGet, "/:id/" ++ rel, .fetchK⟩,
       ⟨.pOptions, "/:id/relationships/" ++ rel, .optionsK⟩,
       ⟨.pGet, "/:id/relationships/" ++ rel, .fetchIDK⟩,
       ⟨.pPatch, "/:id/relationships/" ++ rel,
        if !strContains s patch then .patchOneK else .notAllowed⟩] := by
  simp [Resource.PartialToOne, Resource.Options, Resource.GetRelated,
        Resource.GetRelationship, Resource.PatchOne, Resource.addRoute, patID]

theorem partialToMany_Mux (res : Resource) (rel s : String) :
    (res.PartialToMany rel s).Mux = res.Mux ++
      [⟨.pOptions, "/:id/" ++ rel, .optionsK⟩,
       ⟨.pGet, "/:id/" ++ rel, .listManyK⟩,
       ⟨.pOptions, "/:id/relationships/" ++ rel, .optionsK⟩,
       ⟨.pGet, "/:id/relationships/" ++ rel, .listIDK⟩,
       ⟨.pPost, "/:id/relationships/" ++ rel,
        if !strContains s post then .updateManyK else .notAllowed⟩,
       ⟨.pPatch, "/:id/relationships/" ++ rel,
        if !strContains s patch then .patchManyK else .notAllowed⟩,
       ⟨.pDelete, "/:id/relationships/" ++ rel,
        if !strContains s delete then .updateManyK else .notAllowed⟩] := by
  simp [Resource.PartialToMany, Resource.Options, Resource.ListRelated,
        Resource.ListRelationships, Resource.PostMany, Resource.PatchMany,
        Resource.DeleteMany, Resource.addRoute, patID]

theorem listInfixOf_iff (n h : List Char) : listInfixOf n h = true ↔ n <:+: h := by
  induction h with
  | nil =>
    simp [listInfixOf, List.isEmpty_iff, List.infix_nil]
  | cons b bs ih =>
    simp [listInfixOf, List.infix_cons_iff, ih, List.isPrefixOf_iff_prefix,
      Bool.or_eq_true]

theorem strContains_iff (s substr : String) :
    strContains s substr = true ↔ substr.toList <:+: s.toList := by
  simp [strContains, listInfixOf_iff]

theorem not_mem_allowedMethods (routes : List Route) (reqPath m : String)
    (h : ∀ r ∈ routes, r.Method = m → r.Allow = false) :
    m ∉ allowedMethods routes reqPath := by
  intro hmem
  simp only [allowedMethods, List.mem_map, List.mem_filter, Bool.and_eq_true] at hmem
  obtain ⟨r, ⟨hr, hallow, _⟩, hmeth⟩ := hmem
  have := h r hr hmeth
  rw [this] at hallow
  exact Bool.false_ne_true hallow

theorem post_def : post = "POST" := rfl

theorem get_def : get = "GET" := rfl

theorem delete_def : delete = "DELETE" := rfl

theorem patch_def : patch = "PATCH" := rfl

theorem head_def : head = "HEAD" := rfl

theorem options_def : options = "OPTIONS" := rfl

/-! ## Claim C1: route table of a full CRUD registration -/

/-- C1 counterexample: registering the concrete type "widgets" with full CRUD
(empty disallow string) produces 9 route entries, so the claimed count of
exactly 7 is false. -/
theorem crud_full_route_count_is_not_seven :
    ((NewResource "widgets").PartialCRUD "").Routes.length = 9 ∧
    ((NewResource "widgets").PartialCRUD "").Routes.length ≠ 7 := by decide

/-- C1 (amended): for every resource type `T`, registering `T` with full CRUD
enabled (`CRUD`, i.e. `PartialCRUD` with the empty disallow string) produces
exactly 9 Route entries — OPTIONS for the collection and item paths, HEAD+GET
for list, POST for create, HEAD+GET for fetch, PATCH for update, and DELETE
for delete — all allowed. -/
theorem crud_full_registration_routes (T : String) :
    (NewResource T).CRUD = (NewResource T).PartialCRUD "" ∧
    ((NewResource T).PartialCRUD "").Routes =
      [⟨options, "/" ++ T, true⟩, ⟨head, "/" ++ T, true⟩, ⟨get, "/" ++ T, true⟩,
       ⟨post, "/" ++ T, true⟩,
       ⟨options, "/" ++ T ++ "/:id", true⟩, ⟨head, "/" ++ T ++ "/:id", true⟩,
       ⟨get, "/" ++ T ++ "/:id", true⟩, ⟨patch, "/" ++ T ++ "/:id", true⟩,
       ⟨delete, "/" ++ T ++ "/:id", true⟩] ∧
    ((NewResource T).PartialCRUD "").Routes.length = 9 := by
  have h1 : strContains "" post = false := by decide
  have h2 : strContains "" patch = false := by decide
  have h3 : strContains "" delete = false := by decide
  refine ⟨rfl, ?_, ?_⟩
  · rw [partialCRUD_Routes]
    simp [h1, h2, h3]
  · rw [partialCRUD_Routes]
    rfl

/-- C1 witness: the amended claim evaluated at the concrete type "widgets". -/
theorem crud_full_registration_routes_witness :
    ((NewResource "widgets").PartialCRUD "").Routes.length = 9 :=
  (crud_full_registration_routes "widgets").2.2

/-! ## Claim C2: empty-linkage-list rejection on to-many mutations -/

/-- C2 counterexample: the PATCH (replace) dispatch on a to-many relationship
is bound to `patchManyHandler`, a different handler from the one POST and
DELETE share, and it does not reject an empty parsed linkage list: it invokes
storage and forwards the storage result (here an empty list, sent as 204). -/
theorem patch_many_accepts_empty_list :
    patchManyHandler (.ok []) "1" (fun _ _ => .ok []) = .idList [] ∧
    sentStatus (patchManyHandler (.ok []) "1" (fun _ _ => .ok [])) = some 204 ∧
    patchManyHandler (.ok []) "1" (fun _ _ => .error (ConflictError "a" "b")) =
      .err (ConflictError "a" "b") ∧
    (Resource.PatchMany (NewResource "w") "/:id/relationships/parts" true).Mux =
      [⟨.pPatch, "/:id/relationships/parts", .patchManyK⟩] := by
  refine ⟨rfl, rfl, rfl, rfl⟩

/-- C2 (amended): only the POST (add) and DELETE (remove) dispatches on a
to-many relationship reject a successfully parsed empty linkage list with a
400 Bad Request before invoking storage; those two share one handler
(`updateManyHandler`).  PATCH (replace) is bound to a separate handler
(`patchManyHandler`) that performs no empty-list rejection and invokes the
bound storage operation even on an empty list. -/
theorem to_many_empty_rejection_shared_handler (id matcher : String) (res : Resource)
    (storage : String → List IDObject → Except JshError (List IDObject)) :
    updateManyHandler (.ok []) id storage =
      .err (BadRequestError "Invalid document" "Missing description of changes") ∧
    sentStatus (updateManyHandler (.ok []) id storage) = some 400 ∧
    (res.PostMany matcher true).Mux = res.Mux ++ [⟨.pPost, matcher, .updateManyK⟩] ∧
    (res.DeleteMany matcher true).Mux = res.Mux ++ [⟨.pDelete, matcher, .updateManyK⟩] ∧
    (res.PatchMany matcher true).Mux = res.Mux ++ [⟨.pPatch, matcher, .patchManyK⟩] ∧
    patchManyHandler (.ok []) id storage =
      (match storage id [] with
       | .error e => .err e
       | .ok list2 => .idList list2) := by
  refine ⟨rfl, rfl, ?_, ?_, ?_, rfl⟩ <;>
    simp [Resource.PostMany, Resource.DeleteMany, Resource.PatchMany, Resource.addRoute]

/-- C2 witness: the amended claim evaluated at concrete inputs. -/
theorem to_many_empty_rejection_shared_handler_witness :
    sentStatus (updateManyHandler (.ok []) "1"
      (fun _ _ => .ok ([] : List IDObject))) = some 400 :=
  (to_many_empty_rejection_shared_handler "1" "/:id/relationships/parts"
    (NewResource "w") (fun _ _ => .ok [])).2.1

/-! ## Claim C3: status defaulting on create -/

/-- C3 counterexample: a create whose parse succeeds, passes the
client-generated-ID check, and whose save succeeds with an entity of unset
(zero) status is sent with status still unset — the create handler performs
no defaulting to 200. -/
theorem create_does_not_default_status :
    postHandler EnableClientGeneratedIDsDefault (.ok ⟨"", 0⟩) (fun o => .ok (some o)) =
      .obj (some ⟨"", 0⟩) ∧
    Sent.obj (some ⟨"", 0⟩) ≠ Sent.obj (some ⟨"", 200⟩) := by decide

/-- C3 (amended): the create handler sends the save result unchanged, with no
status-code defaulting; the defaulting of an unset (zero) status to 200
belongs to the action handler, which sets a non-nil result's zero status to
200 before sending. -/
theorem create_forwards_save_result (parsedObject : Object)
    (storage : Object → Except JshError (Option Object)) (result : Option Object)
    (hID : parsedObject.ID = "") (hs : storage parsedObject = .ok result) :
    postHandler EnableClientGeneratedIDsDefault (.ok parsedObject) storage = .obj result ∧
    (∀ o : Object, o.Status = 0 →
      actionHandler (.ok (some o)) = .obj (some { o with Status := 200 })) := by
  constructor
  · simp [postHandler, EnableClientGeneratedIDsDefault, hID, hs]
  · intro o ho
    simp [actionHandler, ho]

/-- C3 witness: the amended claim evaluated at concrete inputs. -/
theorem create_forwards_save_result_witness :
    postHandler EnableClientGeneratedIDsDefault (.ok ⟨"", 0⟩) (fun o => .ok (some o)) =
      .obj (some ⟨"", 0⟩) ∧
    actionHandler (.ok (some ⟨"1", 0⟩)) = .obj (some ⟨"1", 200⟩) := by
  have h := create_forwards_save_result ⟨"", 0⟩ (fun o => .ok (some o)) (some ⟨"", 0⟩)
    (by decide) rfl
  exact ⟨h.1, h.2 ⟨"1", 0⟩ rfl⟩

/-! ## Claim C4: update ID-mismatch validation precedes storage -/

/-- C4: for every update request whose body parses successfully, a path
identifier differing from the body's declared identifier makes the handler
send a 409 Conflict error naming the provided identifier, for every storage
operation (so storage is never invoked — the result does not depend on it);
only when the identifiers match is the bound update operation invoked and
its result sent. -/
theorem patch_id_mismatch_validation (parsedObject : Object) (id : String)
    (storage : Object → Except JshError (Option Object)) :
    (id ≠ parsedObject.ID →
      patchHandler (.ok parsedObject) id storage = .err (ConflictError "" parsedObject.ID) ∧
      sentStatus (patchHandler (.ok parsedObject) id storage) = some 409) ∧
    (id = parsedObject.ID →
      patchHandler (.ok parsedObject) id storage =
        match storage parsedObject with
        | .error e => .err e
        | .ok object => .obj object) := by
  constructor
  · intro h
    simp [patchHandler, h, ConflictError, sentStatus]
  · intro h
    simp [patchHandler, h]

/-- C4 witness: path id "2" with body id "1" yields the 409 conflict error. -/
theorem patch_id_mismatch_validation_witness :
    patchHandler (.ok ⟨"1", 0⟩) "2" (fun o => .ok (some o)) = .err (ConflictError "" "1") ∧
    sentStatus (patchHandler (.ok ⟨"1", 0⟩) "2" (fun o => .ok (some o))) = some 409 :=
  (patch_id_mismatch_validation ⟨"1", 0⟩ "2" (fun o => .ok (some o))).1 (by decide)

/-! ## Claim C5: client-generated IDs rejected on create -/

/-- C5: for every create request whose body parses to an entity with a
non-empty identifier, with the client-generated-ID toggle at its default
(disabled), the handler sends a 403 Forbidden error for every storage
operation (so the bound save is never invoked). -/
theorem post_client_generated_id_forbidden (parsedObject : Object)
    (storage : Object → Except JshError (Option Object))
    (h : parsedObject.ID ≠ "") :
    postHandler EnableClientGeneratedIDsDefault (.ok parsedObject) storage =
      .err (ForbiddenError "Client-generated IDs are unsupported") ∧
    sentStatus (postHandler EnableClientGeneratedIDsDefault (.ok parsedObject) storage) =
      some 403 := by
  simp [postHandler, EnableClientGeneratedIDsDefault, h, ForbiddenError, sentStatus]

/-- C5 witness: a create with body id "7" yields the 403 forbidden error. -/
theorem post_client_generated_id_forbidden_witness :
    postHandler EnableClientGeneratedIDsDefault (.ok ⟨"7", 0⟩) (fun o => .ok (some o)) =
      .err (ForbiddenError "Client-generated IDs are unsupported") ∧
    sentStatus (postHandler EnableClientGeneratedIDsDefault (.ok ⟨"7", 0⟩)
        (fun o => .ok (some o))) = some 403 :=
  post_client_generated_id_forbidden ⟨"7", 0⟩ (fun o => .ok (some o)) (by decide)

/-! ## Claim C6: disallowed methods answer 405 with an excluding Allow header -/

/-- C6: for every disallow string, each disallowed method's route (POST on
the collection path, PATCH and DELETE on the item path) is present in the
route table with allow = false; a request issuing that method against a path
matching the route's pattern dispatches to the not-allowed handler, whose
response is a 405 carrying the Allow header — the comma-joined methods of
all allowed routes matching the request path — from which the disallowed
method is absent. -/
theorem disallowed_method_routes_405 (T s : String) :
    (strContains s post = true →
      (⟨post, "/" ++ T, false⟩ : Route) ∈ ((NewResource T).PartialCRUD s).Routes ∧
      (∀ relPath, patternMatches patRoot relPath = true →
        dispatchResource ((NewResource T).PartialCRUD s).Mux post relPath =
          some HandlerKind.notAllowed) ∧
      (∀ reqPath,
        notAllowedHandler ((NewResource T).PartialCRUD s).Routes reqPath =
          .methodNotAllowed (allowHeader ((NewResource T).PartialCRUD s).Routes reqPath) ∧
        sentStatus (notAllowedHandler ((NewResource T).PartialCRUD s).Routes reqPath) =
          some 405 ∧
        post ∉ allowedMethods ((NewResource T).PartialCRUD s).Routes reqPath)) ∧
    (strContains s patch = true →
      (⟨patch, "/" ++ T ++ "/:id", false⟩ : Route) ∈ ((NewResource T).PartialCRUD s).Routes ∧
      (∀ relPath, patternMatches patID relPath = true →
        dispatchResource ((NewResource T).PartialCRUD s).Mux patch relPath =
          some HandlerKind.notAllowed) ∧
      (∀ reqPath,
        notAllowedHandler ((NewResource T).PartialCRUD s).Routes reqPath =
          .methodNotAllowed (allowHeader ((NewResource T).PartialCRUD s).Routes reqPath) ∧
        sentStatus (notAllowedHandler ((NewResource T).PartialCRUD s).Routes reqPath) =
          some 405 ∧
        patch ∉ allowedMethods ((NewResource T).PartialCRUD s).Routes reqPath)) ∧
    (strContains s delete = true →
      (⟨delete, "/" ++ T ++ "/:id", false⟩ : Route) ∈ ((NewResource T).PartialCRUD s).Routes ∧
      (∀ relPath, patternMatches patID relPath = true →
        dispatchResource ((NewResource T).PartialCRUD s).Mux delete relPath =
          some HandlerKind.notAllowed) ∧
      (∀ reqPath,
        notAllowedHandler ((NewResource T).PartialCRUD s).Routes reqPath =
          .methodNotAllowed (allowHeader ((NewResource T).PartialCRUD s).Routes reqPath) ∧
        sentStatus (notAllowedHandler ((NewResource T).PartialCRUD s).Routes reqPath) =
          some 405 ∧
        delete ∉ allowedMethods ((NewResource T).PartialCRUD s).Routes reqPath)) := by
  refine ⟨?_, ?_, ?_⟩ <;> intro hm <;> refine ⟨?_, ?_, ?_⟩
  · rw [partialCRUD_Routes]
    simp [hm]
  · intro relPath hrel
    simp only [patRoot] at hrel
    have hm' : strContains s "POST" = true := by rwa [post_def] at hm
    rw [partialCRUD_Mux]
    simp [dispatchResource, List.find?, methodMatches, hrel, hm, hm',
      post_def, get_def, delete_def, patch_def, head_def, options_def]
  · intro reqPath
    refine ⟨rfl, rfl, ?_⟩
    apply not_mem_allowedMethods
    rw [partialCRUD_Routes]
    intro r hr hmeth
    simp at hr
    rcases hr with rfl|rfl|rfl|rfl|rfl|rfl|rfl|rfl|rfl <;>
      simp_all [post_def, get_def, delete_def, patch_def, head_def, options_def]
  · rw [partialCRUD_Routes]
    simp [hm]
  · intro relPath hrel
    simp only [patID] at hrel
    have hm' : strContains s "PATCH" = true := by rwa [patch_def] at hm
    rw [partialCRUD_Mux]
    simp [dispatchResource, List.find?, methodMatches, hrel, hm, hm',
      post_def, get_def, delete_def, patch_def, head_def, options_def]
  · intro reqPath
    refine ⟨rfl, rfl, ?_⟩
    apply not_mem_allowedMethods
    rw [partialCRUD_Routes]
    intro r hr hmeth
    simp at hr
    rcases hr with rfl|rfl|rfl|rfl|rfl|rfl|rfl|rfl|rfl <;>
      simp_all [post_def, get_def, delete_def, patch_def, head_def, options_def]
  · rw [partialCRUD_Routes]
    simp [hm]
  · intro relPath hrel
    simp only [patID] at hrel
    have hm' : strContains s "DELETE" = true := by rwa [delete_def] at hm
    rw [partialCRUD_Mux]
    simp [dispatchResource, List.find?, methodMatches, hrel, hm, hm',
      post_def, get_def, delete_def, patch_def, head_def, options_def]
  · intro reqPath
    refine ⟨rfl, rfl, ?_⟩
    apply not_mem_allowedMethods
    rw [partialCRUD_Routes]
    intro r hr hmeth
    simp at hr
    rcases hr with rfl|rfl|rfl|rfl|rfl|rfl|rfl|rfl|rfl <;>
      simp_all [post_def, get_def, delete_def, patch_def, head_def, options_def]

/-- C6 witness: with all three mutating methods disallowed on "widgets",
the POST route is present disallowed, POST and PATCH requests dispatch to
the not-allowed handler, the response status is 405, and POST is absent from
the allowed methods at the collection path. -/
theorem disallowed_method_routes_405_witness :
    (⟨post, "/widgets", false⟩ : Route) ∈
      ((NewResource "widgets").PartialCRUD "POST,PATCH,DELETE").Routes ∧
    dispatchResource ((NewResource "widgets").PartialCRUD "POST,PATCH,DELETE").Mux post "" =
      some HandlerKind.notAllowed ∧
    sentStatus (notAllowedHandler
      ((NewResource "widgets").PartialCRUD "POST,PATCH,DELETE").Routes "/widgets") =
      some 405 ∧
    post ∉ allowedMethods
      ((NewResource "widgets").PartialCRUD "POST,PATCH,DELETE").Routes "/widgets" ∧
    dispatchResource ((NewResource "widgets").PartialCRUD "POST,PATCH,DELETE").Mux patch "/7" =
      some HandlerKind.notAllowed := by
  have h := disallowed_method_routes_405 "widgets" "POST,PATCH,DELETE"
  have hp := h.1 (by decide)
  exact ⟨hp.1, hp.2.1 "" (by decide), (hp.2.2 "/widgets").2.1, (hp.2.2 "/widgets").2.2,
    (h.2.1 (by decide)).2.1 "/7" (by decide)⟩


/-! ## Claim C7: OPTIONS is always allowed and always answers 200 -/

/-- C7: in a resource registered with CRUD, a to-one and a to-many
relationship under arbitrary disallow configurations, every OPTIONS route in
the route table is allowed; every mux binding whose method pattern accepts
OPTIONS is the options handler; and the options handler's response is a 200
carrying the computed Allow header. -/
theorem options_requests_always_200 (T s rel s2 rel2 s3 reqPath : String) :
    (∀ r ∈ ((((NewResource T).PartialCRUD s).PartialToOne rel s2).PartialToMany rel2 s3).Routes, r.Method = options → r.Allow = true) ∧
    (∀ e ∈ ((((NewResource T).PartialCRUD s).PartialToOne rel s2).PartialToMany rel2 s3).Mux, methodMatches e.pat options = true → e.handler = HandlerKind.optionsK) ∧
    optionsHandler ((((NewResource T).PartialCRUD s).PartialToOne rel s2).PartialToMany rel2 s3).Routes reqPath = .ok200 (allowHeader ((((NewResource T).PartialCRUD s).PartialToOne rel s2).PartialToMany rel2 s3).Routes reqPath) ∧
    sentStatus (optionsHandler ((((NewResource T).PartialCRUD s).PartialToOne rel s2).PartialToMany rel2 s3).Routes reqPath) = some 200 := by
  refine ⟨?_, ?_, rfl, rfl⟩
  · intro r hr hmeth
    rw [partialToMany_Routes, partialToOne_Routes, partialCRUD_Routes] at hr
    simp at hr
    rcases hr with rfl|rfl|rfl|rfl|rfl|rfl|rfl|rfl|rfl|rfl|rfl|rfl|rfl|rfl|rfl|rfl|rfl|rfl|rfl|rfl|rfl|rfl|rfl|rfl|rfl <;>
      simp_all [post_def, get_def, delete_def, patch_def, head_def, options_def]
  · intro e he hmm
    rw [partialToMany_Mux, partialToOne_Mux, partialCRUD_Mux] at he
    simp at he
    rcases he with rfl|rfl|rfl|rfl|rfl|rfl|rfl|rfl|rfl|rfl|rfl|rfl|rfl|rfl|rfl|rfl|rfl|rfl|rfl <;>
      simp_all [methodMatches, post_def, get_def, delete_def, patch_def, head_def,
        options_def]

/-- C7 witness: with every disallowable method disallowed, the collection
OPTIONS route of "widgets" is still allowed and an OPTIONS response carries
status 200. -/
theorem options_requests_always_200_witness :
    Route.Allow ⟨options, "/widgets", true⟩ = true ∧
    sentStatus (optionsHandler
      ((((NewResource "widgets").PartialCRUD "POST,PATCH,DELETE").PartialToOne "owner"
          "PATCH").PartialToMany "parts" "POST,PATCH,DELETE").Routes "/widgets") =
      some 200 := by
  have h := options_requests_always_200 "widgets" "POST,PATCH,DELETE" "owner" "PATCH"
    "parts" "POST,PATCH,DELETE" "/widgets"
  exact ⟨h.1 ⟨options, "/widgets", true⟩ (by decide) rfl, h.2.2.2⟩

/-! ## Claim C8: to-many mutation statuses -/

/-- C8: a POST (add) or DELETE (remove) to-many mutation whose body parses to
an empty linkage list is answered 400 for every storage operation (storage is
not invoked); any of the three mutations with a non-empty parsed list invokes
the bound storage operation, and when storage succeeds with a nil result list
the response status is 204. -/
theorem to_many_mutation_statuses (id : String) (l : List IDObject)
    (storage : String → List IDObject → Except JshError (List IDObject)) :
    (updateManyHandler (.ok []) id storage =
       .err (BadRequestError "Invalid document" "Missing description of changes") ∧
     sentStatus (updateManyHandler (.ok []) id storage) = some 400) ∧
    (l ≠ [] →
      updateManyHandler (.ok l) id storage =
        (match storage id l with
         | .error e => .err e
         | .ok list2 => .idList list2) ∧
      (storage id l = .ok [] →
        sentStatus (updateManyHandler (.ok l) id storage) = some 204)) ∧
    (patchManyHandler (.ok l) id storage =
       (match storage id l with
        | .error e => .err e
        | .ok list2 => .idList list2) ∧
     (storage id l = .ok [] →
       sentStatus (patchManyHandler (.ok l) id storage) = some 204)) := by
  refine ⟨⟨rfl, rfl⟩, ?_, rfl, ?_⟩
  · intro hl
    have hlen : (l.length = 0) = False := by
      simp [List.length_eq_zero, hl]
    constructor
    · simp [updateManyHandler, hlen]
    · intro hs
      simp [updateManyHandler, hlen, hs, sentStatus]
  · intro hs
    simp [patchManyHandler, hs, sentStatus]

/-- C8 witness: an empty list posted is 400; a singleton list posted, patched
or deleted with storage succeeding on a nil result is 204. -/
theorem to_many_mutation_statuses_witness :
    sentStatus (updateManyHandler (.ok []) "1"
      (fun _ _ => .ok ([] : List IDObject))) = some 400 ∧
    sentStatus (updateManyHandler (.ok [⟨"1"⟩]) "1"
      (fun _ _ => .ok ([] : List IDObject))) = some 204 ∧
    sentStatus (patchManyHandler (.ok [⟨"1"⟩]) "1"
      (fun _ _ => .ok ([] : List IDObject))) = some 204 := by
  have h := to_many_mutation_statuses "1" [⟨"1"⟩] (fun _ _ => .ok ([] : List IDObject))
  exact ⟨h.1.2, (h.2.1 (by decide)).2 rfl, h.2.2.2 rfl⟩

/-! ## Claim C9: every GET registration adds a HEAD alias -/

/-- C9: each registration function installing a GET route (fetch, list,
related fetch, relationship fetch, related list, relationship list) appends
exactly a HEAD route and a GET route for the same path with the same allow
value, so a HEAD route's allow state is never set independently of its GET
counterpart. -/
theorem get_registration_head_alias (res : Resource) (matcher : String) (allow : Bool) :
    (res.Get allow).Routes =
      res.Routes ++ [⟨head, "/" ++ res.type ++ "/:id", allow⟩,
                     ⟨get, "/" ++ res.type ++ "/:id", allow⟩] ∧
    (res.List allow).Routes =
      res.Routes ++ [⟨head, "/" ++ res.type, allow⟩, ⟨get, "/" ++ res.type, allow⟩] ∧
    (res.GetRelated matcher allow).Routes =
      res.Routes ++ [⟨head, "/" ++ res.type ++ matcher, allow⟩,
                     ⟨get, "/" ++ res.type ++ matcher, allow⟩] ∧
    (res.GetRelationship matcher allow).Routes =
      res.Routes ++ [⟨head, "/" ++ res.type ++ matcher, allow⟩,
                     ⟨get, "/" ++ res.type ++ matcher, allow⟩] ∧
    (res.ListRelated matcher allow).Routes =
      res.Routes ++ [⟨head, "/" ++ res.type ++ matcher, allow⟩,
                     ⟨get, "/" ++ res.type ++ matcher, allow⟩] ∧
    (res.ListRelationships matcher allow).Routes =
      res.Routes ++ [⟨head, "/" ++ res.type ++ matcher, allow⟩,
                     ⟨get, "/" ++ res.type ++ matcher, allow⟩] := by
  refine ⟨?_, ?_, ?_, ?_, ?_, ?_⟩ <;>
    simp [Resource.Get, Resource.List, Resource.GetRelated, Resource.GetRelationship,
          Resource.ListRelated, Resource.ListRelationships, Resource.addRoute,
          patID, patRoot]

/-- C9 witness: the fetch registration on a fresh "widgets" resource appends
the HEAD/GET pair. -/
theorem get_registration_head_alias_witness :
    ((NewResource "widgets").Get true).Routes =
      [] ++ [⟨head, "/" ++ "widgets" ++ "/:id", true⟩,
             ⟨get, "/" ++ "widgets" ++ "/:id", true⟩] :=
  (get_registration_head_alias (NewResource "widgets") "/:id/parts" true).1

/-! ## Claim C10: disallow decision is substring containment -/

/-- C10: in `PartialCRUD`, `PartialToOne` and `PartialToMany`, whether a
method is disallowed is decided by contiguous-substring containment of the
method name in the disallow string (`strings.Contains`), not by token
parsing: each mutating method's unique route carries allow =
`!strContains disallow method`, `strContains` holds exactly when the method's
characters occur contiguously in the disallow string, and in particular
"REPOST" disallows POST. -/
theorem disallow_is_substring_containment (T rel s : String) :
    (∀ m : String, strContains s m = true ↔ m.toList <:+: s.toList) ∧
    ((NewResource T).PartialCRUD s).Routes.filter (fun r => r.Method == post) =
      [⟨post, "/" ++ T, !strContains s post⟩] ∧
    ((NewResource T).PartialCRUD s).Routes.filter (fun r => r.Method == patch) =
      [⟨patch, "/" ++ T ++ "/:id", !strContains s patch⟩] ∧
    ((NewResource T).PartialCRUD s).Routes.filter (fun r => r.Method == delete) =
      [⟨delete, "/" ++ T ++ "/:id", !strContains s delete⟩] ∧
    ((NewResource T).PartialToOne rel s).Routes.filter (fun r => r.Method == patch) =
      [⟨patch, "/" ++ T ++ "/:id/relationships/" ++ rel, !strContains s patch⟩] ∧
    ((NewResource T).PartialToMany rel s).Routes.filter (fun r => r.Method == post) =
      [⟨post, "/" ++ T ++ "/:id/relationships/" ++ rel, !strContains s post⟩] ∧
    ((NewResource T).PartialToMany rel s).Routes.filter (fun r => r.Method == patch) =
      [⟨patch, "/" ++ T ++ "/:id/relationships/" ++ rel, !strContains s patch⟩] ∧
    ((NewResource T).PartialToMany rel s).Routes.filter (fun r => r.Method == delete) =
      [⟨delete, "/" ++ T ++ "/:id/relationships/" ++ rel, !strContains s delete⟩] ∧
    strContains "REPOST" post = true := by
  refine ⟨strContains_iff s, ?_, ?_, ?_, ?_, ?_, ?_, ?_, by decide⟩
  · rw [partialCRUD_Routes]
    simp [post_def, get_def, delete_def, patch_def, head_def, options_def]
  · rw [partialCRUD_Routes]
    simp [post_def, get_def, delete_def, patch_def, head_def, options_def]
  · rw [partialCRUD_Routes]
    simp [post_def, get_def, delete_def, patch_def, head_def, options_def]
  · rw [partialToOne_Routes]
    simp [NewResource, post_def, get_def, delete_def, patch_def, head_def, options_def]
  · rw [partialToMany_Routes]
    simp [NewResource, post_def, get_def, delete_def, patch_def, head_def, options_def]
  · rw [partialToMany_Routes]
    simp [NewResource, post_def, get_def, delete_def, patch_def, head_def, options_def]
  · rw [partialToMany_Routes]
    simp [NewResource, post_def, get_def, delete_def, patch_def, head_def, options_def]

/-- C10 witness: "REPOST" contains "POST" as a substring, so it disallows
POST. -/
theorem disallow_is_substring_containment_witness :
    strContains "REPOST" post = true :=
  (disallow_is_substring_containment "widgets" "parts"
    "REPOST").2.2.2.2.2.2.2.2
